import Mathlib

/-!
Verification of the orchestration/driver layer of `simple_ortho`
(`simple_ortho/command_line.py`).

The driver is embedded shallowly:

* The filesystem, glob expansion, `pathlib` stem computation, the parsed
  pose table, and the outcome of each external-engine call (`rio.open`,
  `OrthoIm.orthorectify`, `OrthoIm.build_ortho_overviews`) are an abstract
  environment `Env`.  Config files on disk are modelled at the value level:
  `yaml.dump` followed by `yaml.safe_load` is the identity on the stored
  `Config` value.
* `checkArgs` embeds `_check_args` (lines 56-78) and `runMain` embeds `main`
  (lines 81-185).  Both return the sequence of observable events (`Ev`)
  that the Python code performs, in program order, together with the way
  the run ends (`MainResult`): `exited0` for the `exit(0)` after writing a
  config (a `SystemExit` is not an `Exception`, so it escapes the outer
  handler), `raised` for an exception that is logged and re-raised by the
  outer handler, and `completed` for a normal fall-through.
* Per-image work, i.e. the body of the inner `try` of the image loop
  (lines 139-181), is `processImage`; its exceptions are caught at the
  image boundary and turn into an `Ev.imgSkipped` event, exactly as the
  inner `except` does.
* Numeric pose data is rational in the environment; the degree-to-radian
  conversion (line 144) is stated over `ℝ` with `Real.pi`.
-/

/-- A row of the pose table `pos_ori_file` as parsed by `pd.read_csv`
(line 132-133): columns easting, northing, altitude, omega, phi, kappa,
keyed by the first column (the image stem). -/
structure PoseRecord (α : Type) where
  easting : α
  northing : α
  altitude : α
  omega : α
  phi : α
  kappa : α
deriving DecidableEq

/-- The `camera` sub-mapping of the YAML configuration, as accessed at
line 159-160 (`focal_len`, `sensor_size`). -/
structure CameraConf where
  focalLen : ℚ
  sensorSize : ℚ × ℚ
deriving DecidableEq

/-- The `ortho` sub-mapping of the YAML configuration; the driver itself
reads only the `build_ovw` flag (line 172). -/
structure OrthoConf where
  buildOvw : Bool
deriving DecidableEq

/-- The configuration document loaded by `yaml.safe_load` (line 118).
A sub-mapping being `none` models the corresponding top-level key being
absent, in which case the subscript access raises `KeyError`. -/
structure Config where
  camera : Option CameraConf
  ortho : Option OrthoConf
deriving DecidableEq

/-- Calls the driver makes into its collaborators for one image:
`rio.open` (line 154), `OrthoIm.orthorectify` (line 168),
`OrthoIm.build_ortho_overviews` (line 175). -/
inductive Call where
  | openImage (p : String)
  | rectify (p : String) (out : Option String)
  | buildOvw (p : String)
deriving DecidableEq

/-- Observable events of one driver run, in program order. -/
inductive Ev where
  /-- the configuration file was opened and parsed (lines 117-118) -/
  | loadConfig
  /-- the configuration value `c` was serialized to `path` (lines 122-124) -/
  | writeConfig (path : String) (c : Config)
  /-- `os.mkdir` was invoked on `d` inside `_check_args` (line 78) -/
  | createdDir (d : String)
  /-- `_check_args` returned without raising (line 129 completed) -/
  | checkedArgs
  /-- a collaborator call was issued for an image -/
  | call (c : Call)
  /-- the inner `except` caught an exception for image `p` and logged
  `msg` (lines 179-181); the loop then continues -/
  | imgSkipped (p : String) (msg : String)
  /-- the body of the image loop finished for `p` without raising -/
  | imgDone (p : String)
deriving DecidableEq

/-- How a run of `main` ends. -/
inductive MainResult where
  /-- `exit(0)` at line 126: the process terminates with success status -/
  | exited0 (t : List Ev)
  /-- normal fall-through after the image loop -/
  | completed (t : List Ev)
  /-- the outer handler (lines 183-185) logged `msg` and re-raised -/
  | raised (msg : String) (t : List Ev)
deriving DecidableEq

/-- The abstract environment a run executes against. -/
structure Env where
  /-- `pathlib.Path(p).exists()` -/
  pathExists : String → Bool
  /-- `pathlib.Path(p).is_dir()` -/
  isDir : String → Bool
  /-- `Path(spec).parent.glob(Path(spec).name)`, as a list of matched paths -/
  glob : String → List String
  /-- `pathlib.Path(p).stem` -/
  stem : String → String
  /-- whether the config file at `p` exists (`config_filename.exists()`) -/
  configExists : String → Bool
  /-- the `Config` value stored at path `p` (read by `yaml.safe_load`) -/
  configVal : String → Config
  /-- the pose table at `pos_ori_file`, already parsed by `pd.read_csv`:
  association list from stem to record, in file order -/
  poseTable : List (String × PoseRecord ℚ)
  /-- result of `rio.open` on an image: `none` is success, `some e` raises
  an exception with message `e` -/
  openResult : String → Option String
  /-- result of `OrthoIm(...).orthorectify()` for an image -/
  rectifyResult : String → Option String
  /-- result of `OrthoIm(...).build_ortho_overviews()` for an image -/
  ovwResult : String → Option String

/-- Message of the exception at line 63. -/
def noMatchMsg (spec : String) : String :=
  "Could not find any source image(s) matching " ++ spec

/-- Message of the exception at line 66. -/
def demMissingMsg (demFile : String) : String :=
  "DEM file " ++ demFile ++ " does not exist"

/-- Message of the exception at line 69. -/
def posOriMissingMsg (posOriFile : String) : String :=
  "Camera position and orientation file " ++ posOriFile ++ " does not exist"

/-- Message of the exception at line 75. -/
def orthoDirMsg (d : String) : String :=
  "Ortho directory " ++ d ++ " is not a valid directory"

/-- Message of the exception at line 115. -/
def configMissingMsg (p : String) : String :=
  "Config file " ++ p ++ " does not exist"

/-- Message of the exception at line 141. -/
def poseNotFoundMsg (stem posOriFile : String) : String :=
  "Could not find " ++ stem ++ " in " ++ posOriFile

/-- `KeyError` raised by `config['camera']` at line 159 when the key is
absent. -/
def keyErrCamera : String := "KeyError camera"

/-- `KeyError` raised by `config['ortho']` at line 166 when the key is
absent. -/
def keyErrOrtho : String := "KeyError ortho"

/-- `_check_args` (lines 56-78).  Returns the message of the exception it
raises, if any, together with the events it performs (only `createdDir` is
possible).  The pattern loop raises at the first pattern whose glob is
empty; then the DEM and pose-file existence checks run; then the output
directory is checked: `is_dir()` first (raising if false), `exists()`
second (creating the directory if false). -/
def checkArgs (env : Env) (srcImFile : List String) (demFile posOriFile : String)
    (orthoDir : Option String) : Option String × List Ev :=
  match srcImFile.find? (fun s => (env.glob s).isEmpty) with
  | some spec => (some (noMatchMsg spec), [])
  | none =>
    if ¬ env.pathExists demFile then (some (demMissingMsg demFile), [])
    else if ¬ env.pathExists posOriFile then (some (posOriMissingMsg posOriFile), [])
    else
      match orthoDir with
      | none => (none, [])
      | some d =>
        if ¬ env.isDir d then (some (orthoDirMsg d), [])
        else if ¬ env.pathExists d then (none, [Ev.createdDir d])
        else (none, [])

/-- First-match lookup of a stem in the pose table (`stem in index`,
line 140, then `.loc[stem]`, line 143). -/
def lookupPose (tbl : List (String × PoseRecord ℚ)) (stem : String) :
    Option (PoseRecord ℚ) :=
  (tbl.find? (fun x => x.1 == stem)).map (fun x => x.2)

/-- The ground-position 3-vector assembled at line 145:
`[easting, northing, altitude]`. -/
def positionOf {α : Type} (r : PoseRecord α) : Fin 3 → α :=
  ![r.easting, r.northing, r.altitude]

/-- The orientation 3-vector assembled at line 144:
`piv * [omega, phi, kappa] / 180`, where `piv` stands for `np.pi`. -/
def orientationOf {α : Type} [Field α] (piv : α) (r : PoseRecord α) : Fin 3 → α :=
  ![piv * r.omega / 180, piv * r.phi / 180, piv * r.kappa / 180]

/-- The output path chosen at lines 148-151. -/
def orthoImFilename (env : Env) (orthoDir : Option String) (img : String) :
    Option String :=
  orthoDir.map (fun d => d ++ "/" ++ env.stem img ++ "_ORTHO.tif")

/-- Body of the inner `try` of the image loop (lines 139-181) for one
matched image path, with the inner `except` applied: any exception becomes
a final `imgSkipped` event.  Order of operations follows the source: stem
lookup (140-141), pose conversion (143-145, pure), output-name choice
(148-151, pure), `rio.open` (154), `config['camera']` access and camera
construction (159-161), `config['ortho']` access and `OrthoIm`
construction (166-167), `orthorectify()` (168), then, when
`config['ortho']['build_ovw']` holds, `build_ortho_overviews()` (172-175). -/
def processImage (env : Env) (config : Config) (posOriFile : String)
    (orthoDir : Option String) (img : String) : List Ev :=
  let out := orthoImFilename env orthoDir img
  match lookupPose env.poseTable (env.stem img) with
  | none => [Ev.imgSkipped img (poseNotFoundMsg (env.stem img) posOriFile)]
  | some _ =>
    match env.openResult img with
    | some e => [Ev.call (Call.openImage img), Ev.imgSkipped img e]
    | none =>
      match config.camera with
      | none => [Ev.call (Call.openImage img), Ev.imgSkipped img keyErrCamera]
      | some _ =>
        match config.ortho with
        | none => [Ev.call (Call.openImage img), Ev.imgSkipped img keyErrOrtho]
        | some oc =>
          match env.rectifyResult img with
          | some e => [Ev.call (Call.openImage img), Ev.call (Call.rectify img out),
              Ev.imgSkipped img e]
          | none =>
            if oc.buildOvw then
              match env.ovwResult img with
              | some e => [Ev.call (Call.openImage img), Ev.call (Call.rectify img out),
                  Ev.call (Call.buildOvw img), Ev.imgSkipped img e]
              | none => [Ev.call (Call.openImage img), Ev.call (Call.rectify img out),
                  Ev.call (Call.buildOvw img), Ev.imgDone img]
            else [Ev.call (Call.openImage img), Ev.call (Call.rectify img out),
                Ev.imgDone img]

/-- The flattened iteration space of the image loop (lines 136-138): each
pattern expanded by glob, in order, with multiplicity (the source performs
no deduplication). -/
def resolved (env : Env) (srcImFile : List String) : List String :=
  srcImFile.flatMap env.glob

/-- Events of the whole image loop. -/
def loopTrace (env : Env) (config : Config) (posOriFile : String)
    (orthoDir : Option String) (srcImFile : List String) : List Ev :=
  (resolved env srcImFile).flatMap (processImage env config posOriFile orthoDir)

/-- The default configuration location `root_path/config.yaml`
(line 110), as a path string. -/
def defaultConfigPath : String := "config.yaml"

/-- Resolution of the configuration path (lines 109-112). -/
def resolveConfigPath (readConf : Option String) : String :=
  match readConf with
  | none => defaultConfigPath
  | some p => p

/-- `main` (lines 81-185).  Control flow in source order: resolve and
check the config path (109-115), load the config (117-118), the
write-and-exit branch (121-126), `_check_args` (129), the pose-table read
(132-133, modelled as already parsed in `env.poseTable`), the image loop
(136-181).  Exceptions reaching the outer handler are logged and re-raised
(`MainResult.raised`); `exit(0)` escapes it (`MainResult.exited0`). -/
def runMain (env : Env) (srcImFile : List String) (demFile posOriFile : String)
    (orthoDir readConf writeConf : Option String) : MainResult :=
  let cfgPath := resolveConfigPath readConf
  if env.configExists cfgPath then
    let config := env.configVal cfgPath
    match writeConf with
    | some w => MainResult.exited0 [Ev.loadConfig, Ev.writeConfig w config]
    | none =>
      match checkArgs env srcImFile demFile posOriFile orthoDir with
      | (some e, _) => MainResult.raised e [Ev.loadConfig]
      | (none, evs) =>
        MainResult.completed ([Ev.loadConfig] ++ evs ++ [Ev.checkedArgs] ++
          loopTrace env config posOriFile orthoDir srcImFile)
  else MainResult.raised (configMissingMsg cfgPath) []

/-- Whether an event is the terminal event (skip or success) for image `q`. -/
def isTerminalFor (q : String) : Ev → Bool
  | Ev.imgSkipped p _ => p == q
  | Ev.imgDone p => p == q
  | _ => false

/-- Number of terminal events for `q` in a trace. -/
def countTerminal (t : List Ev) (q : String) : Nat :=
  t.countP (isTerminalFor q)

/-- Number of occurrences of `q` in a list of paths. -/
def countOcc (l : List String) (q : String) : Nat :=
  l.countP (fun s => s == q)

/-- The trace of events of a run, regardless of how it ended. -/
def traceOf : MainResult → List Ev
  | MainResult.exited0 t => t
  | MainResult.completed t => t
  | MainResult.raised _ t => t

/-- `true` iff the run ended in the outer handler re-raising. -/
def isRaised : MainResult → Bool
  | MainResult.raised _ _ => true
  | _ => false

/-- The `build_ovw` flag as read at line 172, `false` standing in for the
`KeyError` path where the `ortho` mapping is absent. -/
def cfgBuildOvw (c : Config) : Bool :=
  match c.ortho with
  | some oc => oc.buildOvw
  | none => false

/-! ### Helper lemmas -/

lemma processImage_countTerminal (env : Env) (c : Config) (p : String)
    (od : Option String) (img q : String) :
    countTerminal (processImage env c p od img) q = if img == q then 1 else 0 := by
  unfold processImage
  cases hl : lookupPose env.poseTable (env.stem img) with
  | none => simp [countTerminal, isTerminalFor, List.countP_cons, List.countP_nil]
  | some r =>
    cases ho : env.openResult img with
    | some e => simp [countTerminal, isTerminalFor, List.countP_cons, List.countP_nil]
    | none =>
      cases hc : c.camera with
      | none => simp [countTerminal, isTerminalFor, List.countP_cons, List.countP_nil]
      | some cc =>
        cases hor : c.ortho with
        | none => simp [countTerminal, isTerminalFor, List.countP_cons, List.countP_nil]
        | some oc =>
          cases hr : env.rectifyResult img with
          | some e => simp [countTerminal, isTerminalFor, List.countP_cons, List.countP_nil]
          | none =>
            cases hb : oc.buildOvw with
            | false => simp [hb, countTerminal, isTerminalFor, List.countP_cons, List.countP_nil]
            | true =>
              cases hv : env.ovwResult img with
              | some e => simp [hb, hv, countTerminal, isTerminalFor, List.countP_cons, List.countP_nil]
              | none => simp [hb, hv, countTerminal, isTerminalFor, List.countP_cons, List.countP_nil]

lemma flatMap_countTerminal (env : Env) (c : Config) (p : String)
    (od : Option String) (l : List String) (q : String) :
    countTerminal (l.flatMap (processImage env c p od)) q = countOcc l q := by
  induction l with
  | nil => simp [countTerminal, countOcc]
  | cons a l ih =>
    have h1 := processImage_countTerminal env c p od a q
    simp only [List.flatMap_cons, countTerminal, List.countP_append, countOcc,
      List.countP_cons] at *
    rw [h1, ih]
    cases hq : a == q <;> simp [hq, Nat.add_comm]

lemma checkArgs_events_createdDir (env : Env) (s : List String) (d p : String)
    (od : Option String) :
    ∀ ev ∈ (checkArgs env s d p od).2, ∃ dd, ev = Ev.createdDir dd := by
  unfold checkArgs
  cases hf : s.find? (fun x => (env.glob x).isEmpty) with
  | some spec => simp
  | none =>
    by_cases h1 : env.pathExists d
    · by_cases h2 : env.pathExists p
      · cases od with
        | none => simp [h1, h2]
        | some dd =>
          by_cases h3 : env.isDir dd
          · by_cases h4 : env.pathExists dd <;> simp [h1, h2, h3, h4]
          · simp [h1, h2, h3]
      · simp [h1, h2]
    · simp [h1]

lemma processImage_no_imgDone (env : Env) (c : Config) (p : String)
    (od : Option String) (img q : String)
    (hcam : c.camera = none ∨ c.ortho = none) :
    Ev.imgDone q ∉ processImage env c p od img := by
  unfold processImage
  cases hl : lookupPose env.poseTable (env.stem img) with
  | none => simp
  | some r =>
    cases ho : env.openResult img with
    | some e => simp
    | none =>
      cases hcc : c.camera with
      | none => simp
      | some cc =>
        cases hcam with
        | inl h => rw [h] at hcc; exact absurd hcc (by simp)
        | inr h => simp [h]

/-! ### Claim theorems -/

/-- C7: for every pose record, the camera is constructed with position
vector `[easting, northing, altitude]` and orientation vector
`[omega, phi, kappa]` scaled componentwise by `pi / 180`; in particular the
row `img001 500000.0 4000000.0 1200.0 1.5 -0.3 90.0` yields position
`[500000, 4000000, 1200]` and orientation `[1.5, -0.3, 90]` times
`pi / 180` (lines 143-145). -/
theorem pose_conversion_correct (r : PoseRecord ℝ) :
    orientationOf Real.pi r =
      ![r.omega * (Real.pi / 180), r.phi * (Real.pi / 180), r.kappa * (Real.pi / 180)] ∧
    positionOf r = ![r.easting, r.northing, r.altitude] ∧
    orientationOf Real.pi (⟨500000, 4000000, 1200, 1.5, -0.3, 90⟩ : PoseRecord ℝ) =
      ![1.5 * (Real.pi / 180), -0.3 * (Real.pi / 180), 90 * (Real.pi / 180)] ∧
    positionOf (⟨500000, 4000000, 1200, 1.5, -0.3, 90⟩ : PoseRecord ℝ) =
      ![500000, 4000000, 1200] := by
  refine ⟨?_, rfl, ?_, rfl⟩ <;>
    · funext i
      fin_cases i <;>
        · simp [orientationOf]
          ring

/-- C10: for every image, the overview-building call is issued iff the
pose lookup succeeded, the image opened, both config sub-mappings are
present, the rectification call returned without raising, and the
`build_ovw` flag is set; in particular an error during orthorectification
skips overview building (lines 166-177). -/
theorem overviews_only_after_rectify (env : Env) (c : Config) (p : String)
    (od : Option String) (img : String) :
    Ev.call (Call.buildOvw img) ∈ processImage env c p od img ↔
      ((lookupPose env.poseTable (env.stem img)).isSome = true ∧
       env.openResult img = none ∧
       c.camera.isSome = true ∧
       env.rectifyResult img = none ∧
       cfgBuildOvw c = true) := by
  unfold processImage
  cases hl : lookupPose env.poseTable (env.stem img) with
  | none => simp [hl]
  | some r =>
    cases ho : env.openResult img with
    | some e => simp [hl, ho]
    | none =>
      cases hc : c.camera with
      | none => simp [hl, ho, hc]
      | some cc =>
        cases hor : c.ortho with
        | none => simp [hl, ho, hc, cfgBuildOvw, hor]
        | some oc =>
          cases hr : env.rectifyResult img with
          | some e => simp [hl, ho, hc, hor, hr]
          | none =>
            cases hb : oc.buildOvw with
            | false => simp [hl, ho, hc, hor, hr, hb, cfgBuildOvw]
            | true =>
              cases hv : env.ovwResult img with
              | some e => simp [hl, ho, hc, hor, hr, hb, hv, cfgBuildOvw]
              | none => simp [hl, ho, hc, hor, hr, hb, hv, cfgBuildOvw]

/-- Environment for the output-directory bug: source images, DEM and pose
file all exist; the path `newdir` does not exist on the filesystem (so it
is also not a directory). -/
def envC1 : Env where
  pathExists := fun p => p == "dem.tif" || p == "pos.txt" || p == "a.tif"
  isDir := fun _ => false
  glob := fun s => if s == "a.tif" then ["a.tif"] else []
  stem := fun _ => "a"
  configExists := fun _ => true
  configVal := fun _ => ⟨none, none⟩
  poseTable := []
  openResult := fun _ => none
  rectifyResult := fun _ => none
  ovwResult := fun _ => none

/-- C1 (code bug): with a supplied output directory that does not exist,
`_check_args` raises `Ortho directory ... is not a valid directory` and
never reaches the create-and-warn branch, because `is_dir()` (false for a
nonexistent path) is tested at line 74 before `exists()` at line 76; the
`os.mkdir` of line 78 is dead code, contradicting the comment at line 71
and the warning at line 77. -/
theorem nonexistent_outdir_raises_instead_of_creating :
    checkArgs envC1 ["a.tif"] "dem.tif" "pos.txt" (some "newdir") =
      (some "Ortho directory newdir is not a valid directory", []) := by
  rfl

/-- Environment for the write-config claims: a config file exists at the
default location. -/
def envC4 : Env where
  pathExists := fun _ => true
  isDir := fun _ => true
  glob := fun s => [s]
  stem := fun p => p
  configExists := fun _ => true
  configVal := fun _ => ⟨some ⟨4, (6, 4)⟩, some ⟨true⟩⟩
  poseTable := []
  openResult := fun _ => none
  rectifyResult := fun _ => none
  ovwResult := fun _ => none

/-- C4: when a write-config target is supplied and the configuration
loads, the run writes exactly the loaded configuration value to the target
(so a reload yields a round-trip-equal document) and terminates with
success status immediately: the whole trace is load followed by write,
with no `checkedArgs`, no collaborator call and no per-image terminal
event (lines 121-126). -/
theorem writeConf_short_circuit (env : Env) (s : List String) (d p : String)
    (od rc : Option String) (w : String)
    (hc : env.configExists (resolveConfigPath rc) = true) :
    runMain env s d p od rc (some w) =
      MainResult.exited0
        [Ev.loadConfig, Ev.writeConfig w (env.configVal (resolveConfigPath rc))] := by
  unfold runMain
  simp [hc]

/-- Witness for C4 at a concrete environment. -/
theorem writeConf_short_circuit_witness :
    envC4.configExists (resolveConfigPath none) = true ∧
    runMain envC4 ["a.tif"] "dem.tif" "pos.txt" none none (some "out.yaml") =
      MainResult.exited0
        [Ev.loadConfig, Ev.writeConfig "out.yaml" (envC4.configVal (resolveConfigPath none))] :=
  ⟨rfl, writeConf_short_circuit envC4 ["a.tif"] "dem.tif" "pos.txt" none none "out.yaml" rfl⟩

/-- Environment for C9: no config file exists anywhere. -/
def envC9 : Env where
  pathExists := fun _ => true
  isDir := fun _ => true
  glob := fun s => [s]
  stem := fun p => p
  configExists := fun _ => false
  configVal := fun _ => ⟨none, none⟩
  poseTable := []
  openResult := fun _ => none
  rectifyResult := fun _ => none
  ovwResult := fun _ => none

/-- C9: even with a write-config target supplied, a missing configuration
file (default or user-specified read path) is batch-fatal before the
write branch: the run raises the config-missing error with an empty trace,
so in particular no `writeConfig` event occurs (lines 109-126). -/
theorem missing_config_blocks_write (env : Env) (s : List String) (d p : String)
    (od rc : Option String) (w : String)
    (hc : env.configExists (resolveConfigPath rc) = false) :
    runMain env s d p od rc (some w) =
      MainResult.raised (configMissingMsg (resolveConfigPath rc)) [] := by
  unfold runMain
  simp [hc]

/-- Witness for C9 at a concrete environment. -/
theorem missing_config_blocks_write_witness :
    envC9.configExists (resolveConfigPath (some "my.yaml")) = false ∧
    runMain envC9 ["a.tif"] "dem.tif" "pos.txt" none (some "my.yaml") (some "out.yaml") =
      MainResult.raised (configMissingMsg (resolveConfigPath (some "my.yaml"))) [] :=
  ⟨rfl, missing_config_blocks_write envC9 ["a.tif"] "dem.tif" "pos.txt" none
    (some "my.yaml") "out.yaml" rfl⟩

/-- Environment for C6: the pattern `x*.tif` matches nothing; everything
else is in place. -/
def envC6 : Env where
  pathExists := fun _ => true
  isDir := fun _ => true
  glob := fun _ => []
  stem := fun p => p
  configExists := fun _ => true
  configVal := fun _ => ⟨some ⟨4, (6, 4)⟩, some ⟨true⟩⟩
  poseTable := []
  openResult := fun _ => none
  rectifyResult := fun _ => none
  ovwResult := fun _ => none

/-- C6: when some supplied pattern matches zero files (`spec` being the
first such, which is where the loop of lines 60-63 raises), the run is
batch-fatal: the offending pattern is a supplied pattern matching zero
files, the raised message names that exact pattern string, and the trace
is just the config load — no image is opened, rectified or skipped. -/
theorem no_match_batch_fatal (env : Env) (s : List String) (d p : String)
    (od rc : Option String) (spec : String)
    (hc : env.configExists (resolveConfigPath rc) = true)
    (hf : s.find? (fun x => (env.glob x).isEmpty) = some spec) :
    spec ∈ s ∧ env.glob spec = [] ∧
    runMain env s d p od rc none =
      MainResult.raised ("Could not find any source image(s) matching " ++ spec)
        [Ev.loadConfig] := by
  refine ⟨List.mem_of_find?_eq_some hf, ?_, ?_⟩
  · have hp := List.find?_some hf
    simpa using hp
  · unfold runMain checkArgs
    simp [hc, hf, noMatchMsg]

/-- Witness for C6 at a concrete environment. -/
theorem no_match_batch_fatal_witness :
    envC6.configExists (resolveConfigPath none) = true ∧
    ["x*.tif"].find? (fun x => (envC6.glob x).isEmpty) = some "x*.tif" ∧
    ("x*.tif" ∈ ["x*.tif"] ∧ envC6.glob "x*.tif" = [] ∧
      runMain envC6 ["x*.tif"] "dem.tif" "pos.txt" none none none =
        MainResult.raised ("Could not find any source image(s) matching " ++ "x*.tif")
          [Ev.loadConfig]) :=
  ⟨rfl, rfl, no_match_batch_fatal envC6 ["x*.tif"] "dem.tif" "pos.txt" none none
    "x*.tif" rfl rfl⟩

/-- Environment for C8: the DEM file is missing, everything else is in
place. -/
def envC8 : Env where
  pathExists := fun p => p != "dem.tif"
  isDir := fun _ => true
  glob := fun s => [s]
  stem := fun p => p
  configExists := fun _ => true
  configVal := fun _ => ⟨some ⟨4, (6, 4)⟩, some ⟨false⟩⟩
  poseTable := [("a.tif", ⟨0, 0, 0, 0, 0, 0⟩)]
  openResult := fun _ => none
  rectifyResult := fun _ => none
  ovwResult := fun _ => none

/-- C8: the validations of `_check_args` (image patterns, DEM existence,
pose-file existence, output directory) all run before any per-image work:
if `_check_args` raises, the run ends `raised` with a trace containing
only the config load — no collaborator call, no image touched — and the
error is the one re-raised to the caller; if `_check_args` passes, the
whole image loop runs strictly after the `checkedArgs` event
(lines 128-129 and 183-185). -/
theorem checks_precede_rectification (env : Env) (s : List String) (d p : String)
    (od rc : Option String) (e : String)
    (hc : env.configExists (resolveConfigPath rc) = true) :
    ((checkArgs env s d p od).1 = some e →
      runMain env s d p od rc none = MainResult.raised e [Ev.loadConfig]) ∧
    ((checkArgs env s d p od).1 = none →
      runMain env s d p od rc none =
        MainResult.completed ([Ev.loadConfig] ++ (checkArgs env s d p od).2 ++
          [Ev.checkedArgs] ++
          loopTrace env (env.configVal (resolveConfigPath rc)) p od s)) := by
  rcases hk : checkArgs env s d p od with ⟨err, evs⟩
  constructor
  · intro h1
    have h2 : err = some e := h1
    subst h2
    unfold runMain
    simp [hc, hk]
  · intro h1
    have h2 : err = none := h1
    subst h2
    unfold runMain
    simp [hc, hk]

/-- Witness for C8 at a concrete environment (DEM missing). -/
theorem checks_precede_rectification_witness :
    envC8.configExists (resolveConfigPath none) = true ∧
    (((checkArgs envC8 ["a.tif"] "dem.tif" "pos.txt" none).1 =
        some (demMissingMsg "dem.tif") →
      runMain envC8 ["a.tif"] "dem.tif" "pos.txt" none none none =
        MainResult.raised (demMissingMsg "dem.tif") [Ev.loadConfig]) ∧
    ((checkArgs envC8 ["a.tif"] "dem.tif" "pos.txt" none).1 = none →
      runMain envC8 ["a.tif"] "dem.tif" "pos.txt" none none none =
        MainResult.completed ([Ev.loadConfig] ++
          (checkArgs envC8 ["a.tif"] "dem.tif" "pos.txt" none).2 ++
          [Ev.checkedArgs] ++
          loopTrace envC8 (envC8.configVal (resolveConfigPath none)) "pos.txt" none
            ["a.tif"]))) :=
  ⟨rfl, checks_precede_rectification envC8 ["a.tif"] "dem.tif" "pos.txt" none none
    (demMissingMsg "dem.tif") rfl⟩

lemma fullTrace_countTerminal (env : Env) (c : Config) (p : String)
    (od : Option String) (s : List String) (evs : List Ev)
    (hevs : ∀ ev ∈ evs, ∃ dd, ev = Ev.createdDir dd) (q : String) :
    countTerminal ([Ev.loadConfig] ++ evs ++ [Ev.checkedArgs] ++
      loopTrace env c p od s) q = countOcc (resolved env s) q := by
  have h0 : evs.countP (isTerminalFor q) = 0 := by
    rw [List.countP_eq_zero]
    intro a ha
    obtain ⟨dd, rfl⟩ := hevs a ha
    simp [isTerminalFor]
  have hloop := flatMap_countTerminal env c p od (resolved env s) q
  simp only [countTerminal, loopTrace] at hloop ⊢
  simp [List.countP_append, List.countP_cons, List.countP_nil, isTerminalFor, h0, hloop]

/-- Environment for the duplicate-pattern counterexample: the single file
`a.tif` exists and is matched by the pattern `a.tif`; the pose table is
empty, so the image is skipped each time it is visited. -/
def envC3 : Env where
  pathExists := fun _ => true
  isDir := fun _ => true
  glob := fun s => if s == "a.tif" then ["a.tif"] else []
  stem := fun _ => "a"
  configExists := fun _ => true
  configVal := fun _ => ⟨some ⟨4, (6, 4)⟩, some ⟨false⟩⟩
  poseTable := []
  openResult := fun _ => none
  rectifyResult := fun _ => none
  ovwResult := fun _ => none

/-- C3 counterexample: with the same file matched by two supplied
patterns, the loop of lines 136-138 visits it once per pattern — the
single distinct resolved path reaches a terminal state twice, not once.
There is no deduplication in the source. -/
theorem duplicate_pattern_processed_twice :
    countTerminal
      (traceOf (runMain envC3 ["a.tif", "a.tif"] "dem.tif" "pos.txt" none none none))
      "a.tif" = 2 ∧
    resolved envC3 ["a.tif", "a.tif"] = ["a.tif", "a.tif"] := by
  constructor <;> rfl

/-- C3 amended: for every run that reaches the image loop, each image
path reaches a terminal state (`imgDone` or `imgSkipped`) exactly as many
times as it occurs across the glob expansions of the supplied patterns —
once per (pattern, match) pair, with no deduplication across patterns
(lines 136-138). -/
theorem each_match_processed_once (env : Env) (s : List String) (d p : String)
    (od rc : Option String)
    (hc : env.configExists (resolveConfigPath rc) = true)
    (hk : (checkArgs env s d p od).1 = none) :
    ∃ t, runMain env s d p od rc none = MainResult.completed t ∧
      ∀ q, countTerminal t q = countOcc (resolved env s) q := by
  rcases hkk : checkArgs env s d p od with ⟨err, evs⟩
  rw [hkk] at hk
  have h2 : err = none := hk
  subst h2
  refine ⟨[Ev.loadConfig] ++ evs ++ [Ev.checkedArgs] ++
    loopTrace env (env.configVal (resolveConfigPath rc)) p od s, ?_, ?_⟩
  · unfold runMain
    simp [hc, hkk]
  · intro q
    refine fullTrace_countTerminal env _ p od s evs ?_ q
    intro ev hev
    exact checkArgs_events_createdDir env s d p od ev (by rw [hkk]; exact hev)

/-- Witness for the amended C3 at a concrete environment. -/
theorem each_match_processed_once_witness :
    envC3.configExists (resolveConfigPath none) = true ∧
    (checkArgs envC3 ["a.tif", "a.tif"] "dem.tif" "pos.txt" none).1 = none ∧
    (∃ t, runMain envC3 ["a.tif", "a.tif"] "dem.tif" "pos.txt" none none none =
        MainResult.completed t ∧
      ∀ q, countTerminal t q = countOcc (resolved envC3 ["a.tif", "a.tif"]) q) :=
  ⟨rfl, rfl,
    each_match_processed_once envC3 ["a.tif", "a.tif"] "dem.tif" "pos.txt" none none
      rfl rfl⟩

/-- Environment for C5: two images resolve; the pose table has a row for
`b` only, so `a.tif` has no pose record while `b.tif` processes fully. -/
def envC5 : Env where
  pathExists := fun _ => true
  isDir := fun _ => true
  glob := fun s => [s]
  stem := fun p => if p == "a.tif" then "a" else "b"
  configExists := fun _ => true
  configVal := fun _ => ⟨some ⟨4, (6, 4)⟩, some ⟨false⟩⟩
  poseTable := [("b", ⟨0, 0, 0, 0, 0, 0⟩)]
  openResult := fun _ => none
  rectifyResult := fun _ => none
  ovwResult := fun _ => none

/-- C5: an image whose stem is absent from the pose table is skipped at
the image boundary with the `Could not find ... in ...` error
(lines 140-141, caught at 179-181), the run still completes, and every
resolved image — this one and all others — reaches a terminal state
exactly as often as it is resolved. -/
theorem missing_pose_skips_one_image (env : Env) (s : List String) (d p : String)
    (od rc : Option String) (img : String)
    (hc : env.configExists (resolveConfigPath rc) = true)
    (hk : (checkArgs env s d p od).1 = none)
    (hm : img ∈ resolved env s)
    (hl : lookupPose env.poseTable (env.stem img) = none) :
    ∃ t, runMain env s d p od rc none = MainResult.completed t ∧
      Ev.imgSkipped img (poseNotFoundMsg (env.stem img) p) ∈ t ∧
      ∀ q, countTerminal t q = countOcc (resolved env s) q := by
  rcases hkk : checkArgs env s d p od with ⟨err, evs⟩
  rw [hkk] at hk
  have h2 : err = none := hk
  subst h2
  refine ⟨[Ev.loadConfig] ++ evs ++ [Ev.checkedArgs] ++
    loopTrace env (env.configVal (resolveConfigPath rc)) p od s, ?_, ?_, ?_⟩
  · unfold runMain
    simp [hc, hkk]
  · have hmem : Ev.imgSkipped img (poseNotFoundMsg (env.stem img) p) ∈
        loopTrace env (env.configVal (resolveConfigPath rc)) p od s := by
      unfold loopTrace
      refine List.mem_flatMap.mpr ⟨img, hm, ?_⟩
      unfold processImage
      simp [hl]
    simp [hmem]
  · intro q
    refine fullTrace_countTerminal env _ p od s evs ?_ q
    intro ev hev
    exact checkArgs_events_createdDir env s d p od ev (by rw [hkk]; exact hev)

/-- Witness for C5 at a concrete environment. -/
theorem missing_pose_skips_one_image_witness :
    envC5.configExists (resolveConfigPath none) = true ∧
    (checkArgs envC5 ["a.tif", "b.tif"] "dem.tif" "pos.txt" none).1 = none ∧
    "a.tif" ∈ resolved envC5 ["a.tif", "b.tif"] ∧
    lookupPose envC5.poseTable (envC5.stem "a.tif") = none ∧
    (∃ t, runMain envC5 ["a.tif", "b.tif"] "dem.tif" "pos.txt" none none none =
        MainResult.completed t ∧
      Ev.imgSkipped "a.tif" (poseNotFoundMsg (envC5.stem "a.tif") "pos.txt") ∈ t ∧
      ∀ q, countTerminal t q = countOcc (resolved envC5 ["a.tif", "b.tif"]) q) :=
  ⟨rfl, rfl, by decide, rfl,
    missing_pose_skips_one_image envC5 ["a.tif", "b.tif"] "dem.tif" "pos.txt" none none
      "a.tif" rfl rfl (by decide) rfl⟩

/-- Environment for the C2 counterexample: both images resolve and open,
but the loaded configuration has no `camera` sub-mapping. -/
def envC2 : Env where
  pathExists := fun _ => true
  isDir := fun _ => true
  glob := fun s => [s]
  stem := fun p => if p == "a.tif" then "a" else "b"
  configExists := fun _ => true
  configVal := fun _ => ⟨none, some ⟨false⟩⟩
  poseTable := [("a", ⟨0, 0, 0, 0, 0, 0⟩), ("b", ⟨0, 0, 0, 0, 0, 0⟩)]
  openResult := fun _ => none
  rectifyResult := fun _ => none
  ovwResult := fun _ => none

/-- C2 counterexample: with the `camera` sub-mapping absent, a two-image
run is NOT batch-fatal: the `KeyError` from `config['camera']` (line 159)
is raised inside the per-image `try` and caught at lines 179-181, so each
image is skipped in turn and the run completes normally — nothing is
re-raised to the caller. -/
theorem missing_camera_not_batch_fatal :
    runMain envC2 ["a.tif", "b.tif"] "dem.tif" "pos.txt" none none none =
      MainResult.completed
        [Ev.loadConfig, Ev.checkedArgs,
         Ev.call (Call.openImage "a.tif"), Ev.imgSkipped "a.tif" keyErrCamera,
         Ev.call (Call.openImage "b.tif"), Ev.imgSkipped "b.tif" keyErrCamera] ∧
    isRaised (runMain envC2 ["a.tif", "b.tif"] "dem.tif" "pos.txt" none none none) =
      false := by
  constructor <;> rfl

/-- C2 amended: absence of the `camera` or the `ortho` sub-mapping is a
per-image skip-and-continue failure, not a batch-fatal one: when the
argument checks pass, the run completes normally, no image ever succeeds
(`imgDone` never occurs), and every resolved image still reaches a
terminal (skipped) state (lines 159, 166, 179-181). -/
theorem missing_config_key_per_image (env : Env) (s : List String) (d p : String)
    (od rc : Option String)
    (hc : env.configExists (resolveConfigPath rc) = true)
    (hk : (checkArgs env s d p od).1 = none)
    (hcam : (env.configVal (resolveConfigPath rc)).camera = none ∨
      (env.configVal (resolveConfigPath rc)).ortho = none) :
    ∃ t, runMain env s d p od rc none = MainResult.completed t ∧
      (∀ q, Ev.imgDone q ∉ t) ∧
      ∀ q, countTerminal t q = countOcc (resolved env s) q := by
  rcases hkk : checkArgs env s d p od with ⟨err, evs⟩
  rw [hkk] at hk
  have h2 : err = none := hk
  subst h2
  refine ⟨[Ev.loadConfig] ++ evs ++ [Ev.checkedArgs] ++
    loopTrace env (env.configVal (resolveConfigPath rc)) p od s, ?_, ?_, ?_⟩
  · unfold runMain
    simp [hc, hkk]
  · intro q hq
    simp only [List.mem_append, List.mem_singleton] at hq
    rcases hq with ((hq | hq) | hq) | hq
    · simp at hq
    · obtain ⟨dd, hdd⟩ :=
        checkArgs_events_createdDir env s d p od _ (by rw [hkk]; exact hq)
      simp at hdd
    · simp at hq
    · obtain ⟨img, _, hq2⟩ := List.mem_flatMap.mp hq
      exact processImage_no_imgDone env _ p od img q hcam hq2
  · intro q
    refine fullTrace_countTerminal env _ p od s evs ?_ q
    intro ev hev
    exact checkArgs_events_createdDir env s d p od ev (by rw [hkk]; exact hev)

/-- Witness for the amended C2 at a concrete environment. -/
theorem missing_config_key_per_image_witness :
    envC2.configExists (resolveConfigPath none) = true ∧
    (checkArgs envC2 ["a.tif", "b.tif"] "dem.tif" "pos.txt" none).1 = none ∧
    ((envC2.configVal (resolveConfigPath none)).camera = none ∨
      (envC2.configVal (resolveConfigPath none)).ortho = none) ∧
    (∃ t, runMain envC2 ["a.tif", "b.tif"] "dem.tif" "pos.txt" none none none =
        MainResult.completed t ∧
      (∀ q, Ev.imgDone q ∉ t) ∧
      ∀ q, countTerminal t q = countOcc (resolved envC2 ["a.tif", "b.tif"]) q) :=
  ⟨rfl, rfl, Or.inl rfl,
    missing_config_key_per_image envC2 ["a.tif", "b.tif"] "dem.tif" "pos.txt" none none
      rfl rfl (Or.inl rfl)⟩
